import Mathlib

/-!
# Verification of the modern-hubspot-migration tool

Shallow embedding of the core pure logic of the repository:

* `src/src/core/field_filters.py` — `HubSpotFieldFilter`
* `src/src/utils/utils.py` — `make_hubspot_request`
* `src/src/core/rollback_manager.py` — `RollbackManager`
* `src/property_sync.py` — `create_property`, `sync_properties`
* `src/src/migrations/deal_association_migrator.py`
* `src/src/core/selective_sync.py` — company-name similarity matching

Python dictionaries are modelled as association lists (Python dict keys are
unique, noted where it matters), Python strings as Lean `String`, Python
floats as `ℚ`, and network I/O as explicit oracles passed in as functions.
-/

namespace HubSpotMig

/-- Model of a Python scalar value as passed around for property values. -/
inductive PyVal where
  | none : PyVal
  | str : String → PyVal
  | int : Int → PyVal
  | bool : Bool → PyVal
deriving DecidableEq, Repr

/-- Python `str()` on scalar values. -/
def pyStr : PyVal → String
  | .none => "None"
  | .str s => s
  | .int n => toString n
  | .bool true => "True"
  | .bool false => "False"

/-- Python `str.lower()` (ASCII-level, via `Char.toLower`). -/
def pyLower (s : String) : String := ⟨s.data.map Char.toLower⟩

/-- Drop trailing characters satisfying `p` (Python `rstrip`). -/
def dropTrailWhile (p : Char → Bool) (l : List Char) : List Char :=
  (l.reverse.dropWhile p).reverse

/-- Python `str.strip()`: remove leading and trailing whitespace. -/
def pyStrip (s : String) : String :=
  ⟨dropTrailWhile Char.isWhitespace (s.data.dropWhile Char.isWhitespace)⟩

/-- Python `str.startswith(p)`. -/
def pyStartsWith (s p : String) : Bool := p.data.isPrefixOf s.data

/-- Python `str.endswith(p)`. -/
def pyEndsWith (s p : String) : Bool := p.data.isSuffixOf s.data

/-- Bool-valued infix (contiguous sublist) test on character lists. -/
def charsInfixOf : List Char → List Char → Bool
  | n, [] => n.isPrefixOf []
  | n, h :: t => n.isPrefixOf (h :: t) || charsInfixOf n t

/-- Python `needle in haystack` substring test. -/
def pyContains (haystack needle : String) : Bool :=
  charsInfixOf needle.data haystack.data

/-- Python `str.split()` with no argument: split on runs of whitespace,
dropping empty pieces.  `cur` is the (reversed) word being accumulated. -/
def pyWordsAux : List Char → List Char → List String
  | [], cur => if cur = [] then [] else [⟨cur.reverse⟩]
  | c :: rest, cur =>
    if c.isWhitespace then
      if cur = [] then pyWordsAux rest []
      else String.mk cur.reverse :: pyWordsAux rest []
    else pyWordsAux rest (c :: cur)

/-- Python `str.split()` (whitespace split, empties dropped). -/
def pySplitWs (s : String) : List String := pyWordsAux s.data []

/-- Python string slicing `s[:n]`. -/
def pyTake (n : Nat) (s : String) : String := ⟨s.data.take n⟩

end HubSpotMig

namespace FieldFilters

open HubSpotMig

/-- A contact property definition as consumed by
`HubSpotFieldFilter.is_writable_property` (`src/src/core/field_filters.py`):
the `name` together with the three flags the function reads. -/
structure PropDef where
  name : String
  hubspotDefined : Bool
  readOnlyValue : Bool
  calculated : Bool
deriving DecidableEq, Repr

/-- `self.SYSTEM_PREFIXES` from `HubSpotFieldFilter.__init__`. -/
def SYSTEM_PREFIXES : List String :=
  ["hs_additional_", "hs_all_", "hs_analytics_", "hs_associated_",
   "hs_avatar_", "hs_buying_", "hs_calculated_", "hs_clicked_",
   "hs_contact_", "hs_content_", "hs_conversations_", "hs_count_",
   "hs_country_", "hs_created_", "hs_createdate_", "hs_cross_",
   "hs_currently_", "hs_customer_", "hs_data_", "hs_document_",
   "hs_email_", "hs_emailconfirmationstatus_", "hs_employment_",
   "hs_enriched_", "hs_facebook_", "hs_facebookid_", "hs_feedback_",
   "hs_first_", "hs_full_", "hs_google_", "hs_googleplusid_",
   "hs_gps_", "hs_has_", "hs_inferred_", "hs_intent_", "hs_ip_",
   "hs_is_", "hs_job_", "hs_journey_", "hs_language_", "hs_last_",
   "hs_lastmodifieddate_", "hs_latest_", "hs_latitude_", "hs_lead_",
   "hs_legal_", "hs_linkedin_", "hs_linkedinid_", "hs_live_",
   "hs_longitude_", "hs_marketable_", "hs_membership_", "hs_merged_",
   "hs_messaging_", "hs_mobile_", "hs_notes_", "hs_object_",
   "hs_owning_", "hs_persona_", "hs_pinned_", "hs_pipeline_",
   "hs_predictivecontactscore_", "hs_predictivecontactscorebucket_",
   "hs_predictivescoringtier_", "hs_prospecting_", "hs_quarantined_",
   "hs_read_", "hs_recent_", "hs_registered_", "hs_registration_",
   "hs_returning_", "hs_role_", "hs_sa_", "hs_sales_",
   "hs_searchable_", "hs_seniority_", "hs_sequences_", "hs_shared_",
   "hs_social_", "hs_source_", "hs_state_", "hs_sub_",
   "hs_testpurge_", "hs_testrollback_", "hs_time_", "hs_timezone_",
   "hs_twitterid_", "hs_unique_", "hs_updated_", "hs_user_",
   "hs_v2_", "hs_was_", "hs_whatsapp_"]

/-- `self.READONLY_EXACT_FIELDS`. -/
def READONLY_EXACT_FIELDS : List String :=
  ["createdate", "lastmodifieddate", "hs_object_id",
   "first_deal_created_date", "recent_conversion_date",
   "first_conversion_date", "recent_conversion_event_name",
   "first_conversion_event_name", "num_conversion_events",
   "num_unique_conversion_events", "days_to_close"]

/-- `self.PRODUCTION_IDENTIFIERS`. -/
def PRODUCTION_IDENTIFIERS : List String :=
  ["associatedcompanyid", "hubspot_owner_id", "hubspot_team_id",
   "hubspot_owner_assigneddate", "hs_all_owner_ids", "hs_all_team_ids",
   "hs_created_by_user_id", "hs_updated_by_user_id",
   "hs_object_source_user_id", "hs_contact_creation_legal_basis_source_instance_id",
   "hs_facebook_click_id", "hs_google_click_id", "hs_first_closed_order_id",
   "hs_first_engagement_object_id", "hs_marketable_reason_id",
   "hs_object_source_id", "hs_source_object_id", "hs_source_portal_id",
   "hs_pinned_engagement_id", "unific_last_draft_order_id",
   "unific_shopping_cart_customer_id", "unific_sync_id"]

/-- `self.ANALYTICS_FIELDS`. -/
def ANALYTICS_FIELDS : List String :=
  ["ip_city", "ip_country", "ip_country_code", "ip_state", "ip_state_code",
   "ip_zipcode", "ip_latlon"]

/-- `self.OTHER_READONLY_PREFIXES`. -/
def OTHER_READONLY_PREFIXES : List String :=
  ["num_", "first_", "recent_", "last_", "total_"]

/-- The `core_fields` allow-list in `is_writable_property`. -/
def CORE_CONTACT_FIELDS : List String :=
  ["email", "firstname", "lastname", "phone", "mobilephone",
   "company", "jobtitle", "website", "address", "city",
   "state", "zip", "country", "lifecyclestage"]

/-- `HubSpotFieldFilter.is_writable_property`
(`src/src/core/field_filters.py` lines 75-131). -/
def is_writable_property (prop : PropDef) : Bool :=
  let prop_name := pyLower prop.name
  if CORE_CONTACT_FIELDS.contains prop_name then true
  else if prop.hubspotDefined then false
  else if prop.readOnlyValue then false
  else if prop.calculated then false
  else if READONLY_EXACT_FIELDS.contains prop_name then false
  else if PRODUCTION_IDENTIFIERS.contains prop_name then false
  else if ANALYTICS_FIELDS.contains prop_name then false
  else if SYSTEM_PREFIXES.any (fun p => pyStartsWith prop_name p) then false
  else if OTHER_READONLY_PREFIXES.any (fun p => pyStartsWith prop_name p) then false
  else if pyEndsWith prop_name "_id" && !(["email", "phone", "mobile"].contains prop_name) then false
  else true

/-- `HubSpotFieldFilter.is_property_name_writable`
(`src/src/core/field_filters.py` lines 159-195). -/
def is_property_name_writable (prop_name : String) : Bool :=
  let prop_name_lower := pyLower prop_name
  if READONLY_EXACT_FIELDS.contains prop_name_lower then false
  else if PRODUCTION_IDENTIFIERS.contains prop_name_lower then false
  else if ANALYTICS_FIELDS.contains prop_name_lower then false
  else if SYSTEM_PREFIXES.any (fun p => pyStartsWith prop_name_lower p) then false
  else if OTHER_READONLY_PREFIXES.any (fun p => pyStartsWith prop_name_lower p) then false
  else if pyEndsWith prop_name_lower "_id" && !(["email", "phone", "mobile"].contains prop_name_lower) then false
  else true

/-- `HubSpotFieldFilter.clean_property_value`
(`src/src/core/field_filters.py` lines 197-217). -/
def clean_property_value (value : PyVal) : Option String :=
  if value = PyVal.none then none
  else
    let str_value := pyStrip (pyStr value)
    if str_value = "" || ["none", "null", ""].contains (pyLower str_value) then none
    else some str_value

/-- Re-inject the `str | None` result of `clean_property_value` as a Python
value, for composing the function with itself. -/
def optToPy : Option String → PyVal
  | Option.none => PyVal.none
  | Option.some s => PyVal.str s

/-- `HubSpotFieldFilter.filter_contact_properties`
(`src/src/core/field_filters.py` lines 133-157).  The input dict is an
association list; Python dict keys are unique, so `del filtered['email']`
removes exactly the bindings whose key is `"email"`. -/
def filter_contact_properties (contact_properties : List (String × PyVal))
    (is_update : Bool) : List (String × String) :=
  let filtered := contact_properties.filterMap (fun kv =>
    if is_property_name_writable kv.1 then
      match clean_property_value kv.2 with
      | Option.some cleaned => Option.some (kv.1, cleaned)
      | Option.none => Option.none
    else Option.none)
  if is_update then filtered.filter (fun kv => kv.1 ≠ "email") else filtered

end FieldFilters

namespace FieldFilters

open HubSpotMig

lemma contains_eq_true_iff_mem {l : List String} {a : String} :
    l.contains a = true ↔ a ∈ l := by
  simp [List.contains, List.elem_iff]

/-- Lowercasing a string that ends in `"_id"` yields a string that still
ends in `"_id"`. -/
lemma pyLower_endsWith_id {s : String} (h : pyEndsWith s "_id" = true) :
    pyEndsWith (pyLower s) "_id" = true := by
  have hsuf : "_id".data <:+ s.data := List.isSuffixOf_iff_suffix.mp h
  obtain ⟨t, ht⟩ := hsuf
  have hlow : "_id".data <:+ (pyLower s).data := by
    refine ⟨t.map Char.toLower, ?_⟩
    have hd : (pyLower s).data = s.data.map Char.toLower := rfl
    rw [hd, ← ht, List.map_append]
    rfl
  exact List.isSuffixOf_iff_suffix.mpr hlow

lemma contains_eq_false_iff_not_mem {l : List String} {a : String} :
    l.contains a = false ↔ a ∉ l := by
  rw [← contains_eq_true_iff_mem]
  cases l.contains a <;> simp

/-- C1 (amended): `is_writable_property` returns true whenever the property
name is in the core-field allow-list, regardless of the
hubspotDefined/readOnlyValue/calculated flags; it returns false whenever the
name is `createdate`, `hs_object_id` or `hubspot_owner_id`, or starts with
one of the enumerated `hs_*_` system prefixes, or ends with `_id` and is
not a core field.  (The original claim's blanket "starts with the prefix
`hs_`" case is refuted by `c1_counterexample`.) -/
theorem c1_writability (prop : PropDef) :
    (prop.name ∈ CORE_CONTACT_FIELDS → is_writable_property prop = true)
    ∧ ((prop.name = "createdate" ∨ prop.name = "hs_object_id" ∨ prop.name = "hubspot_owner_id") →
        is_writable_property prop = false)
    ∧ (SYSTEM_PREFIXES.any (fun p => pyStartsWith (pyLower prop.name) p) = true →
        is_writable_property prop = false)
    ∧ (pyEndsWith prop.name "_id" = true → pyLower prop.name ∉ CORE_CONTACT_FIELDS →
        is_writable_property prop = false) := by
  obtain ⟨n, d, r, c⟩ := prop
  refine ⟨?_, ?_, ?_, ?_⟩
  · intro hmem
    simp only [CORE_CONTACT_FIELDS, List.mem_cons, List.not_mem_nil, or_false] at hmem
    rcases hmem with h|h|h|h|h|h|h|h|h|h|h|h|h|h <;> subst h <;>
      cases d <;> cases r <;> cases c <;> decide
  · intro hmem
    rcases hmem with h|h|h <;> simp only at h <;> subst h <;>
      cases d <;> cases r <;> cases c <;> decide
  · intro hp
    have hco : CORE_CONTACT_FIELDS.contains (pyLower n) = false := by
      rw [contains_eq_false_iff_not_mem]
      intro hmem
      simp only [CORE_CONTACT_FIELDS, List.mem_cons, List.not_mem_nil, or_false] at hmem
      rcases hmem with h|h|h|h|h|h|h|h|h|h|h|h|h|h <;> rw [h] at hp <;> exact absurd hp (by decide)
    cases d <;> cases r <;> cases c <;>
      simp only [is_writable_property, hco, hp, eq_self_iff_true, if_true,
        Bool.false_eq_true, if_false, ite_self]
  · intro hid hnc
    have hco : CORE_CONTACT_FIELDS.contains (pyLower n) = false :=
      contains_eq_false_iff_not_mem.mpr hnc
    have hend := pyLower_endsWith_id hid
    have h3c : (["email", "phone", "mobile"].contains (pyLower n)) = false := by
      rw [contains_eq_false_iff_not_mem]
      intro hm
      simp only [List.mem_cons, List.not_mem_nil, or_false] at hm
      rcases hm with h|h|h
      · exact hnc (by rw [h]; decide)
      · exact hnc (by rw [h]; decide)
      · rw [h] at hend; exact absurd hend (by decide)
    cases d <;> cases r <;> cases c <;>
      simp only [is_writable_property, hco, hend, h3c, eq_self_iff_true, if_true,
        Bool.false_eq_true, if_false, ite_self, Bool.not_false, Bool.true_and]

/-- C1 counterexample: the property `hs_custom` starts with the prefix `hs_`
and carries none of the hubspotDefined/readOnlyValue/calculated flags, yet
`is_writable_property` judges it writable — so the claim's "returns false
whenever the name starts with the prefix `hs_`" is false on the code: only
the enumerated two-segment `hs_*_` prefixes are blocked. -/
theorem c1_counterexample :
    pyStartsWith "hs_custom" "hs_" = true ∧
    is_writable_property ⟨"hs_custom", false, false, false⟩ = true := by decide

/-- Witness for `c1_writability` at concrete inputs: a core field with all
flags set is writable; `createdate`, an `hs_analytics_` name and a `_id`
name are not. -/
theorem c1_witness :
    is_writable_property ⟨"email", true, true, true⟩ = true
    ∧ is_writable_property ⟨"createdate", false, false, false⟩ = false
    ∧ is_writable_property ⟨"hs_analytics_source", false, false, false⟩ = false
    ∧ is_writable_property ⟨"external_id", false, false, false⟩ = false :=
  ⟨(c1_writability ⟨"email", true, true, true⟩).1 (by decide),
   (c1_writability ⟨"createdate", false, false, false⟩).2.1 (Or.inl rfl),
   (c1_writability ⟨"hs_analytics_source", false, false, false⟩).2.2.1 (by decide),
   (c1_writability ⟨"external_id", false, false, false⟩).2.2.2 (by decide) (by decide)⟩

lemma dropWhile_dropWhile (p : Char → Bool) (l : List Char) :
    (l.dropWhile p).dropWhile p = l.dropWhile p := by
  induction l with
  | nil => rfl
  | cons a t ih =>
    by_cases h : p a
    · simp only [List.dropWhile_cons, h, if_true, ih]
    · simp only [List.dropWhile_cons, h, if_false, Bool.false_eq_true]

lemma stripChars_idem (l : List Char) :
    dropTrailWhile Char.isWhitespace
      ((dropTrailWhile Char.isWhitespace (l.dropWhile Char.isWhitespace)).dropWhile
        Char.isWhitespace)
      = dropTrailWhile Char.isWhitespace (l.dropWhile Char.isWhitespace) := by
  set f := Char.isWhitespace with hf
  set A := l.dropWhile f with hA
  set B := dropTrailWhile f A with hB
  have hAdrop : A.dropWhile f = A := by rw [hA]; exact dropWhile_dropWhile f l
  have hBrev : B.reverse = A.reverse.dropWhile f := by
    rw [hB]; unfold dropTrailWhile; rw [List.reverse_reverse]
  have hBdrop : B.dropWhile f = B := by
    rcases hB' : B with _ | ⟨x, xs⟩
    · rfl
    · have hpre : B <+: A := by
        rw [← List.reverse_suffix, hBrev]
        exact List.dropWhile_suffix f
      obtain ⟨t, ht⟩ := hpre
      have hx : f x = false := by
        by_contra hfx
        have hfx' : f x = true := by
          revert hfx; cases f x <;> simp
        have hAeq : A = x :: (xs ++ t) := by rw [← ht, hB']; rfl
        rw [hAeq, List.dropWhile_cons, hfx', if_pos rfl] at hAdrop
        have hlen := congrArg List.length hAdrop
        have hle := ((List.dropWhile_suffix f (l := xs ++ t)).length_le)
        simp only [List.length_cons] at hlen
        omega
      rw [List.dropWhile_cons, hx]
      simp
  have hBtrail : dropTrailWhile f B = B := by
    unfold dropTrailWhile
    rw [hBrev, dropWhile_dropWhile, ← hBrev, List.reverse_reverse]
  rw [hBdrop, hBtrail]

/-- Python `str.strip()` is idempotent. -/
lemma pyStrip_idem (s : String) : pyStrip (pyStrip s) = pyStrip s := by
  unfold pyStrip
  exact congrArg String.mk (stripChars_idem s.data)

lemma clean_property_value_idem (v : PyVal) :
    clean_property_value (optToPy (clean_property_value v)) = clean_property_value v := by
  rcases hv : clean_property_value v with _ | s
  · simp [clean_property_value, optToPy]
  · have key : pyStrip (pyStr v) = s ∧
        ((decide (pyStrip (pyStr v) = "") ||
          ["none", "null", ""].contains (pyLower (pyStrip (pyStr v)))) = false) := by
      simp only [clean_property_value] at hv
      by_cases h1 : v = PyVal.none
      · rw [if_pos h1] at hv; cases hv
      · rw [if_neg h1] at hv
        cases hq : (decide (pyStrip (pyStr v) = "") ||
            ["none", "null", ""].contains (pyLower (pyStrip (pyStr v)))) with
        | false =>
          rw [hq] at hv
          rw [if_neg (by simp)] at hv
          exact ⟨by injection hv, rfl⟩
        | true =>
          rw [hq] at hv
          rw [if_pos rfl] at hv
          cases hv
    obtain ⟨hps, hcond⟩ := key
    have hs : pyStrip s = s := by rw [← hps]; exact pyStrip_idem _
    have hconds : ((decide (s = "") ||
        ["none", "null", ""].contains (pyLower s)) = false) := by rw [← hps]; exact hcond
    show clean_property_value (PyVal.str s) = some s
    unfold clean_property_value
    rw [if_neg (by simp)]
    simp only [pyStr, hs]
    rw [if_neg (by rw [hconds]; simp)]

/-- In an association list with distinct keys (as in a Python dict), two
bindings of the same key carry the same value. -/
lemma eq_of_mem_of_nodup_keys {l : List (String × PyVal)} {a : String} {b c : PyVal}
    (h : (l.map Prod.fst).Nodup) (hb : (a, b) ∈ l) (hc : (a, c) ∈ l) : b = c := by
  induction l with
  | nil => cases hb
  | cons x t ih =>
    rw [List.map_cons, List.nodup_cons] at h
    rcases List.mem_cons.mp hb with h1 | h1
    · rcases List.mem_cons.mp hc with h2 | h2
      · rw [← h1] at h2
        injection h2 with _ h2e
        exact h2e.symm
      · exfalso
        refine h.1 ?_
        have hx1 : x.1 = a := by rw [← h1]
        rw [hx1]
        exact List.mem_map.mpr ⟨(a, c), h2, rfl⟩
    · rcases List.mem_cons.mp hc with h2 | h2
      · exfalso
        refine h.1 ?_
        have hx1 : x.1 = a := by rw [← h2]
        rw [hx1]
        exact List.mem_map.mpr ⟨(a, b), h1, rfl⟩
      · exact ih h.2 h1 h2

/-- C7: `filter_contact_properties` with `is_update = True` never keeps an
`email` key; with `is_update = False`, an `email` entry whose value cleans
to a non-empty string is preserved (with its cleaned value). -/
theorem c7_email_filtering (props : List (String × PyVal)) :
    (∀ v, ("email", v) ∉ filter_contact_properties props true)
    ∧ (∀ v s, ("email", v) ∈ props → clean_property_value v = some s →
        ("email", s) ∈ filter_contact_properties props false) := by
  constructor
  · intro v hv
    have hv' := (List.mem_filter.mp hv).2
    simp at hv'
  · intro v s hv hc
    show ("email", s) ∈ List.filterMap _ props
    refine List.mem_filterMap.mpr ⟨("email", v), hv, ?_⟩
    show (if is_property_name_writable "email" then
        match clean_property_value v with
        | Option.some cleaned => Option.some ("email", cleaned)
        | Option.none => Option.none
      else Option.none) = some ("email", s)
    rw [if_pos (by decide : is_property_name_writable "email" = true)]
    rw [hc]

/-- Witness for `c7_email_filtering`: an `email` entry that cleans to
`"a@b.c"` survives a create-mode filter. -/
theorem c7_witness :
    ("email", "a@b.c") ∈ filter_contact_properties [("email", PyVal.str " a@b.c ")] false :=
  (c7_email_filtering [("email", PyVal.str " a@b.c ")]).2
    (PyVal.str " a@b.c ") "a@b.c" (by decide) (by decide)

/-- C8: `clean_property_value` is idempotent; the empty string, `"null"`
and `"none"` (case-insensitively, with surrounding whitespace) and Python
`None` all clean to `None`; and an entry of the input dict whose value
cleans to `None` never appears in the output of
`filter_contact_properties`. -/
theorem c8_clean_values (v : PyVal) :
    clean_property_value (optToPy (clean_property_value v)) = clean_property_value v
    ∧ clean_property_value (PyVal.str "") = none
    ∧ clean_property_value (PyVal.str "null") = none
    ∧ clean_property_value (PyVal.str " NULL ") = none
    ∧ clean_property_value (PyVal.str "none") = none
    ∧ clean_property_value (PyVal.str "  None  ") = none
    ∧ clean_property_value PyVal.none = none
    ∧ (∀ (props : List (String × PyVal)) (name : String) (w : PyVal) (upd : Bool),
        (props.map Prod.fst).Nodup → (name, w) ∈ props →
        clean_property_value w = none →
        ∀ s, (name, s) ∉ filter_contact_properties props upd) := by
  refine ⟨clean_property_value_idem v, by decide, by decide, by decide, by decide,
    by decide, by decide, ?_⟩
  intro props name w upd hnd hmem hclean s hs
  have hf : (name, s) ∈ props.filterMap (fun kv =>
      if is_property_name_writable kv.1 then
        match clean_property_value kv.2 with
        | Option.some cleaned => Option.some (kv.1, cleaned)
        | Option.none => Option.none
      else Option.none) := by
    cases upd with
    | false => exact hs
    | true => exact List.mem_of_mem_filter hs
  obtain ⟨⟨k, w'⟩, hk, hfa⟩ := List.mem_filterMap.mp hf
  by_cases hw : is_property_name_writable k
  · rw [if_pos hw] at hfa
    rcases hc2 : clean_property_value w' with _ | c
    · rw [hc2] at hfa; cases hfa
    · rw [hc2] at hfa
      injection hfa with hfa'
      have hkname : k = name := congrArg Prod.fst hfa'
      subst hkname
      have hww : w' = w := eq_of_mem_of_nodup_keys hnd hk hmem
      rw [hww, hclean] at hc2
      cases hc2
  · rw [if_neg hw] at hfa
    cases hfa

/-- Witness for `c8_clean_values`: a `"null"`-valued entry is dropped from
the filtered map. -/
theorem c8_witness :
    ("company", "x") ∉ filter_contact_properties [("company", PyVal.str "null")] false :=
  (c8_clean_values PyVal.none).2.2.2.2.2.2.2
    [("company", PyVal.str "null")] "company" (PyVal.str "null") false
    (by decide) (by decide) (by decide) "x"

end FieldFilters

namespace Utils

open HubSpotMig

/-- A JSON-like value: Python dicts/lists/scalars as handled by
`response.json()` and the error dicts built in `make_hubspot_request`. -/
inductive JVal where
  | null : JVal
  | str : String → JVal
  | num : Int → JVal
  | arr : List JVal → JVal
  | obj : List (String × JVal) → JVal

/-- The keys of a JSON object (empty for non-objects). -/
def jKeys : JVal → List String
  | .obj kvs => kvs.map Prod.fst
  | _ => []

/-- One HTTP response as observed by `make_hubspot_request`: status code,
optional `Retry-After` header, the parsed JSON body (`none` models a body
on which `response.json()` raises `ValueError`), and the raw text. -/
structure HttpResp where
  status : Nat
  retryAfter : Option Nat
  json? : Option JVal
  text : String

/-- The outcome of one attempt of `session.request` in
`make_hubspot_request`: a response, or one of the exception classes the
function catches. -/
inductive HttpEvent where
  | resp (r : HttpResp)
  | timeout (msg : String)
  | connErr (msg : String)
  | reqExn (msg : String)
  | otherExn (msg : String)

/-- The value returned by `make_hubspot_request` — the `(success, data)`
pair — together with the list of `time.sleep` durations performed
(in seconds, floats modelled as `ℚ`). -/
structure ReqResult where
  ok : Bool
  data : JVal
  sleeps : List ℚ

/-- `response.json()` with the given fallback dict on JSON parse failure. -/
def jsonOfResp (r : HttpResp) (fallback : List (String × JVal)) : JVal :=
  match r.json? with
  | some j => j
  | none => JVal.obj fallback

/-- The post-loop return of `make_hubspot_request` (utils.py lines 194-199):
`(False, {'error': ..., 'url': ..., 'last_exception': str(last_exception)})`. -/
def exhaustedResult (maxRetries : Nat) (url : String) (lastExn : Option String) : ReqResult :=
  { ok := false
    data := JVal.obj
      [("error", JVal.str ("Max retries (" ++ toString maxRetries ++ ") exceeded" ++
          (match lastExn with | some m => ": " ++ m | none => ""))),
       ("url", JVal.str url),
       ("last_exception", JVal.str (match lastExn with | some m => m | none => "None"))]
    sleeps := [] }

/-- The generic error return of `make_hubspot_request` (utils.py lines
155-166), reached for client errors and for 5xx responses whose retries
are exhausted: all four of `status_code`, `error`, `url`, `method`. -/
def clientErrorResult (method url : String) (r : HttpResp) : ReqResult :=
  { ok := false
    data := JVal.obj
      [("status_code", JVal.num r.status),
       ("error", match r.json? with | some j => j | none => JVal.str r.text),
       ("url", JVal.str url),
       ("method", JVal.str method)]
    sleeps := [] }

/-- The retry loop of `make_hubspot_request` (`for attempt in
range(max_retries + 1)`), one equation per remaining attempt index.
`env` gives the network outcome of each attempt; `lastExn` carries the
`last_exception` variable. -/
def requestGo (env : Nat → HttpEvent) (method url : String) (maxRetries : Nat)
    (backoff : ℚ) : List Nat → Option String → ReqResult
  | [], lastExn => exhaustedResult maxRetries url lastExn
  | attempt :: rest, lastExn =>
    match env attempt with
    | .resp r =>
      if r.status = 200 ∨ r.status = 201 ∨ r.status = 202 then
        { ok := true
          data := jsonOfResp r [("status", JVal.str "success"), ("text", JVal.str r.text)]
          sleeps := [] }
      else if r.status = 204 then
        { ok := true
          data := JVal.obj [("status", JVal.str "success"), ("message", JVal.str "No content")]
          sleeps := [] }
      else if r.status = 409 then
        { ok := true
          data := jsonOfResp r [("status", JVal.str "conflict"), ("text", JVal.str r.text)]
          sleeps := [] }
      else if r.status = 429 then
        if attempt < maxRetries then
          let sleepTime : ℚ :=
            match r.retryAfter with
            | some ra => min (ra : ℚ) 300
            | none => min (backoff ^ attempt) 60
          let res := requestGo env method url maxRetries backoff rest lastExn
          { res with sleeps := sleepTime :: res.sleeps }
        else
          { ok := false
            data := JVal.obj
              [("status_code", JVal.num r.status),
               ("error", JVal.str "Rate limited - max retries exceeded"),
               ("retry_after",
                 match r.retryAfter with
                 | some ra => JVal.str (toString ra)
                 | none => JVal.null)]
            sleeps := [] }
      else if r.status = 500 ∨ r.status = 502 ∨ r.status = 503 ∨ r.status = 504 then
        if attempt < maxRetries then
          let sleepTime : ℚ := min (backoff ^ attempt) 30
          let res := requestGo env method url maxRetries backoff rest lastExn
          { res with sleeps := sleepTime :: res.sleeps }
        else
          clientErrorResult method url r
      else
        clientErrorResult method url r
    | .timeout m =>
      if attempt < maxRetries then
        let sleepTime : ℚ := min (backoff ^ attempt) 10
        let res := requestGo env method url maxRetries backoff rest (some m)
        { res with sleeps := sleepTime :: res.sleeps }
      else
        exhaustedResult maxRetries url (some m)
    | .connErr m =>
      if attempt < maxRetries then
        let sleepTime : ℚ := min (backoff ^ attempt) 10
        let res := requestGo env method url maxRetries backoff rest (some m)
        { res with sleeps := sleepTime :: res.sleeps }
      else
        exhaustedResult maxRetries url (some m)
    | .reqExn m =>
      { ok := false
        data := JVal.obj [("error", JVal.str ("Request exception: " ++ m)), ("url", JVal.str url)]
        sleeps := [] }
    | .otherExn m =>
      { ok := false
        data := JVal.obj [("error", JVal.str ("Unexpected error: " ++ m)), ("url", JVal.str url)]
        sleeps := [] }

/-- `make_hubspot_request` (`src/src/utils/utils.py` lines 67-199).  The
Python defaults are `max_retries = 3`, `backoff_factor = 2.0`; callers in
the theorems below pass those values explicitly. -/
def make_hubspot_request (env : Nat → HttpEvent) (method url : String)
    (maxRetries : Nat) (backoff : ℚ) : ReqResult :=
  requestGo env method url maxRetries backoff (List.range (maxRetries + 1)) none

/-- Environment of C4: three 429 responses without `Retry-After`, then a
200 whose body parses to `body`. -/
def env429then200 (body : JVal) : Nat → HttpEvent := fun attempt =>
  if attempt < 3 then HttpEvent.resp ⟨429, none, none, ""⟩
  else HttpEvent.resp ⟨200, none, some body, ""⟩

/-- C4: with the default `max_retries = 3` and `backoff_factor = 2.0`, on
three consecutive 429 responses without `Retry-After` followed by a 200,
`make_hubspot_request` performs exactly 3 retries, returns `(True, body)`,
and each retry sleeps `min(backoff_factor ** attempt, 60)` seconds —
concretely 1, 2 and 4 seconds, total 7. -/
theorem c4_retry_schedule (body : JVal) (method url : String) :
    (make_hubspot_request (env429then200 body) method url 3 2).ok = true
    ∧ (make_hubspot_request (env429then200 body) method url 3 2).data = body
    ∧ (make_hubspot_request (env429then200 body) method url 3 2).sleeps
        = [min ((2 : ℚ) ^ 0) 60, min ((2 : ℚ) ^ 1) 60, min ((2 : ℚ) ^ 2) 60]
    ∧ (make_hubspot_request (env429then200 body) method url 3 2).sleeps = [1, 2, 4]
    ∧ (make_hubspot_request (env429then200 body) method url 3 2).sleeps.sum = 7 := by
  refine ⟨rfl, rfl, rfl, ?_, ?_⟩
  · show [min ((2 : ℚ) ^ 0) 60, min ((2 : ℚ) ^ 1) 60, min ((2 : ℚ) ^ 2) 60] = [1, 2, 4]
    norm_num
  · show (min ((2 : ℚ) ^ 0) 60) + ((min ((2 : ℚ) ^ 1) 60) + ((min ((2 : ℚ) ^ 2) 60) + 0)) = 7
    norm_num

/-- C5 counterexample: exhausting the retries on 429 returns `ok = False`
with the dict `{'status_code', 'error', 'retry_after'}` — `url` and
`method` are *not* among its keys, refuting the claim that every
exhausted-retry return carries all four of
`status_code`/`error`/`url`/`method`. -/
theorem c5_counterexample :
    (make_hubspot_request (fun _ => HttpEvent.resp ⟨429, none, none, ""⟩)
        "DELETE" "https://api.hubapi.com/crm/v3/objects/contacts/1" 3 2).ok = false
    ∧ jKeys (make_hubspot_request (fun _ => HttpEvent.resp ⟨429, none, none, ""⟩)
        "DELETE" "https://api.hubapi.com/crm/v3/objects/contacts/1" 3 2).data
        = ["status_code", "error", "retry_after"]
    ∧ "url" ∉ jKeys (make_hubspot_request (fun _ => HttpEvent.resp ⟨429, none, none, ""⟩)
        "DELETE" "https://api.hubapi.com/crm/v3/objects/contacts/1" 3 2).data :=
  ⟨rfl, rfl, by decide⟩

/-- C5 (amended): a non-retryable status returns `ok = False` with all four
keys `status_code`/`error`/`url`/`method`; exhausted 5xx retries also
return all four keys (after 3 sleeps); exhausted 429 retries return only
`status_code`/`error`/`retry_after`; exhausted timeouts return only
`error`/`url`/`last_exception`. -/
theorem c5_error_shapes (method url : String) (r : HttpResp)
    (h200 : ¬(r.status = 200 ∨ r.status = 201 ∨ r.status = 202))
    (h204 : ¬ r.status = 204) (h409 : ¬ r.status = 409) (h429 : ¬ r.status = 429)
    (h5xx : ¬(r.status = 500 ∨ r.status = 502 ∨ r.status = 503 ∨ r.status = 504)) :
    ((make_hubspot_request (fun _ => HttpEvent.resp r) method url 3 2).ok = false
      ∧ jKeys (make_hubspot_request (fun _ => HttpEvent.resp r) method url 3 2).data
          = ["status_code", "error", "url", "method"])
    ∧ ((make_hubspot_request (fun _ => HttpEvent.resp ⟨503, none, none, "oops"⟩) method url 3 2).ok
          = false
      ∧ jKeys (make_hubspot_request (fun _ => HttpEvent.resp ⟨503, none, none, "oops"⟩)
          method url 3 2).data = ["status_code", "error", "url", "method"]
      ∧ (make_hubspot_request (fun _ => HttpEvent.resp ⟨503, none, none, "oops"⟩)
          method url 3 2).sleeps.length = 3)
    ∧ ((make_hubspot_request (fun _ => HttpEvent.resp ⟨429, none, none, ""⟩) method url 3 2).ok
          = false
      ∧ jKeys (make_hubspot_request (fun _ => HttpEvent.resp ⟨429, none, none, ""⟩)
          method url 3 2).data = ["status_code", "error", "retry_after"])
    ∧ ((make_hubspot_request (fun _ => HttpEvent.timeout "timed out") method url 3 2).ok = false
      ∧ jKeys (make_hubspot_request (fun _ => HttpEvent.timeout "timed out")
          method url 3 2).data = ["error", "url", "last_exception"]) := by
  have key : make_hubspot_request (fun _ => HttpEvent.resp r) method url 3 2
      = clientErrorResult method url r := by
    show requestGo (fun _ => HttpEvent.resp r) method url 3 2 [0, 1, 2, 3] none
        = clientErrorResult method url r
    rw [requestGo]
    dsimp only
    rw [if_neg h200, if_neg h204, if_neg h409, if_neg h429, if_neg h5xx]
  refine ⟨⟨?_, ?_⟩, ⟨rfl, rfl, rfl⟩, ⟨rfl, rfl⟩, ⟨rfl, rfl⟩⟩
  · rw [key]; rfl
  · rw [key]; rfl

/-- Witness for `c5_error_shapes`: a 404 response yields `ok = False` with
all four error keys. -/
theorem c5_witness :
    (make_hubspot_request (fun _ => HttpEvent.resp ⟨404, none, none, "not found"⟩)
        "GET" "https://api.hubapi.com/crm/v3/properties/contacts" 3 2).ok = false
    ∧ jKeys (make_hubspot_request (fun _ => HttpEvent.resp ⟨404, none, none, "not found"⟩)
        "GET" "https://api.hubapi.com/crm/v3/properties/contacts" 3 2).data
        = ["status_code", "error", "url", "method"] :=
  (c5_error_shapes "GET" "https://api.hubapi.com/crm/v3/properties/contacts"
    ⟨404, none, none, "not found"⟩ (by decide) (by decide) (by decide) (by decide) (by decide)).1

end Utils

namespace Rollback

open HubSpotMig

/-- The names bound at the top level of `src/src/core/rollback_manager.py`
by its import statements (lines 1-15): `sys`, `os`, the three names
imported from `utils.utils`, `json`, `glob`, `datetime`, `timedelta` and
the `typing` names.  The module never imports `time`. -/
def rollbackModuleNames : List String :=
  ["sys", "os", "load_env_config", "get_api_headers", "make_hubspot_request",
   "json", "glob", "datetime", "timedelta", "List", "Dict", "Any", "Optional"]

/-- A Python runtime exception relevant to the rollback module. -/
inductive PyExn where
  | nameError (n : String)
deriving DecidableEq, Repr

/-- Resolution of a bare global name against the module namespace:
evaluating `time.sleep(0.2)` first resolves `time`, raising
`NameError: name 'time' is not defined` when it is unbound. -/
def resolveName (n : String) : Except PyExn Unit :=
  if rollbackModuleNames.contains n then Except.ok () else Except.error (PyExn.nameError n)

/-- The `{'deleted': ..., 'failed': ..., 'total': ...}` dict returned by the
rollback delete functions. -/
structure DelCounts where
  deleted : Nat
  failed : Nat
  total : Nat
deriving DecidableEq, Repr

/-- The loop of `RollbackManager.delete_objects`
(`src/src/core/rollback_manager.py` lines 84-115) as written: each
iteration classifies the DELETE outcome (`api` gives the success of the
request for each id) and then executes `time.sleep(0.2)`, which requires
resolving the global name `time`; an exception aborts the function. -/
def delete_objects_go (api : String → Bool) :
    List String → Nat → Nat → Except PyExn (Nat × Nat)
  | [], deleted, failed => Except.ok (deleted, failed)
  | objId :: rest, deleted, failed =>
    let counts := if api objId then (deleted + 1, failed) else (deleted, failed + 1)
    match resolveName "time" with
    | Except.ok _ => delete_objects_go api rest counts.1 counts.2
    | Except.error e => Except.error e

/-- `RollbackManager.delete_objects` (lines 77-121): the loop followed by
the `{'deleted', 'failed', 'total'}` return. -/
def delete_objects (api : String → Bool) (objectType : String) (objectIds : List String) :
    Except PyExn DelCounts :=
  match delete_objects_go api objectIds 0 0 with
  | Except.ok df => Except.ok ⟨df.1, df.2, objectIds.length⟩
  | Except.error e => Except.error e

/-- C2 (code bug): on any non-empty id list, `delete_objects` raises
`NameError: name 'time' is not defined` at the `time.sleep(0.2)` call of
its first iteration — `rollback_manager.py` never imports `time` — so the
delete loop cannot run to completion and no counts are returned.
(`objectType` only shapes the request URL and is irrelevant here.) -/
theorem c2_rollback_name_error (api : String → Bool) (objectType : String)
    (objectIds : List String) (h : objectIds ≠ []) :
    delete_objects api objectType objectIds = Except.error (PyExn.nameError "time") := by
  cases objectIds with
  | nil => exact absurd rfl h
  | cons x rest =>
    unfold delete_objects delete_objects_go
    cases api x <;> rfl

/-- Witness for `c2_rollback_name_error`: rolling back a report with one
created contact id raises the `NameError` even though the DELETE succeeds. -/
theorem c2_witness :
    delete_objects (fun _ => true) "contacts" ["123"]
      = Except.error (PyExn.nameError "time") :=
  c2_rollback_name_error (fun _ => true) "contacts" ["123"] (by decide)

/-- The mutable state touched by one iteration of the rollback delete
loops: the `deleted`/`failed` counters, `self.errors`, and the
non-fatal warning lines printed with `⚠️`. -/
structure DelState where
  deleted : Nat
  failed : Nat
  errors : List String
  warnings : List String

/-- The body of one iteration of the `RollbackManager.delete_properties`
loop (lines 130-160), up to but not including the `time.sleep(0.1)` call:
classify the DELETE outcome, incrementing `deleted` or `failed`, printing
the non-fatal warning for refusals whose message mentions
`does not exist` or `hubspotDefined`, and appending to `self.errors`
otherwise.  `api` returns the `(success, str(result))` pair of the DELETE
call; the Python truthiness test `if result` is modelled on the string
form. -/
def delete_properties_step (api : String → Bool × String) (st : DelState)
    (propName : String) : DelState :=
  if (api propName).1 then { st with deleted := st.deleted + 1 }
  else
    let error_msg :=
      if (api propName).2 = "" then "Unknown error" else pyTake 100 (api propName).2
    let st' := { st with failed := st.failed + 1 }
    if pyContains (api propName).2 "does not exist"
        || pyContains (api propName).2 "hubspotDefined" then
      { st' with warnings := st'.warnings
          ++ ["Property " ++ propName ++ " cannot be deleted (system-defined or doesn't exist)"] }
    else
      { st' with errors := st'.errors ++ ["Property " ++ propName ++ ": " ++ error_msg] }

/-- The `delete_properties` loop as written: each iteration runs the body
and then `time.sleep(0.1)`, which resolves the global name `time` and —
since the module never imports it — raises `NameError`, aborting the loop.
The returned pair is the exception (if any) together with the state at
that point: `errors` and `warnings` model instance/console side effects
that survive the exception; `deleted`/`failed` are the loop's local
counters. -/
def delete_properties_go (api : String → Bool × String) :
    List String → DelState → Option PyExn × DelState
  | [], st => (none, st)
  | propName :: rest, st =>
    let st' := delete_properties_step api st propName
    match resolveName "time" with
    | Except.ok _ => delete_properties_go api rest st'
    | Except.error e => (some e, st')

/-- `RollbackManager.delete_properties` (lines 123-169): run the loop; when
no exception occurs return the `{'deleted', 'failed', 'total'}` dict, and
in either case expose the `self.errors` entries appended and the warnings
printed before the function ended. -/
def delete_properties (api : String → Bool × String) (propertyNames : List String) :
    Except PyExn DelCounts × List String × List String :=
  match delete_properties_go api propertyNames ⟨0, 0, [], []⟩ with
  | (none, st) => (Except.ok ⟨st.deleted, st.failed, propertyNames.length⟩, st.errors, st.warnings)
  | (some e, st) => (Except.error e, st.errors, st.warnings)

/-- The body of one iteration of the `RollbackManager.delete_pipelines`
loop (lines 178-206), up to but not including the `time.sleep(0.2)` call,
under the same modelling conventions as `delete_properties_step`.  The
refusal test is
`"default" in str(result).lower() or "cannot be deleted" in str(result)`. -/
def delete_pipelines_step (api : String → Bool × String) (st : DelState)
    (pipelineId : String) : DelState :=
  if (api pipelineId).1 then { st with deleted := st.deleted + 1 }
  else
    let error_msg :=
      if (api pipelineId).2 = "" then "Unknown error" else pyTake 100 (api pipelineId).2
    let st' := { st with failed := st.failed + 1 }
    if pyContains (pyLower (api pipelineId).2) "default"
        || pyContains (api pipelineId).2 "cannot be deleted" then
      { st' with warnings := st'.warnings
          ++ ["Pipeline " ++ pipelineId ++ " cannot be deleted (system default)"] }
    else
      { st' with errors := st'.errors ++ ["Pipeline " ++ pipelineId ++ ": " ++ error_msg] }

/-- The `delete_pipelines` loop with its `time.sleep(0.2)` name
resolution, as in `delete_properties_go`. -/
def delete_pipelines_go (api : String → Bool × String) :
    List String → DelState → Option PyExn × DelState
  | [], st => (none, st)
  | pipelineId :: rest, st =>
    let st' := delete_pipelines_step api st pipelineId
    match resolveName "time" with
    | Except.ok _ => delete_pipelines_go api rest st'
    | Except.error e => (some e, st')

/-- `RollbackManager.delete_pipelines` (lines 171-215). -/
def delete_pipelines (api : String → Bool × String) (pipelineIds : List String) :
    Except PyExn DelCounts × List String × List String :=
  match delete_pipelines_go api pipelineIds ⟨0, 0, [], []⟩ with
  | (none, st) => (Except.ok ⟨st.deleted, st.failed, pipelineIds.length⟩, st.errors, st.warnings)
  | (some e, st) => (Except.error e, st.errors, st.warnings)

/-- C9 counterexample: for a property whose DELETE is refused with a
`hubspotDefined` message, `delete_properties` prints the warning and keeps
the errors list empty, but it never returns `{deleted, failed, total}`
counts in which the item is not a failure: the function raises
`NameError: name 'time' is not defined` at the `time.sleep(0.1)` of the
first iteration, and the loop body had already counted the item in its
`failed` counter. -/
theorem c9_counterexample :
    (delete_properties
        (fun _ => (false, "hubspotDefined properties cannot be deleted")) ["custom_prop"]).1
      = Except.error (PyExn.nameError "time")
    ∧ (delete_properties
        (fun _ => (false, "hubspotDefined properties cannot be deleted")) ["custom_prop"]).2.1
      = []
    ∧ (delete_properties
        (fun _ => (false, "hubspotDefined properties cannot be deleted")) ["custom_prop"]).2.2
      = ["Property custom_prop cannot be deleted (system-defined or doesn\x27t exist)"]
    ∧ (delete_properties_step
        (fun _ => (false, "hubspotDefined properties cannot be deleted"))
        ⟨0, 0, [], []⟩ "custom_prop").failed = 1 :=
  ⟨rfl, rfl, rfl, rfl⟩

/-- C9 (amended): for every property or pipeline whose DELETE the API
refuses with a recognised message (`does not exist`/`hubspotDefined` for
properties, `default`/`cannot be deleted` for pipelines), the rollback
delete functions print a non-fatal warning and do not append the item to
`self.errors`; the loop body does count the item in its `failed` counter;
but no `{deleted, failed, total}` counts are ever returned, because the
function raises `NameError: name 'time' is not defined` at the
`time.sleep` call of that first iteration (the missing `time` import,
see C2). -/
theorem c9_refusal_outcome (api : String → Bool × String)
    (n i : String) (restP restI : List String)
    (hp : (api n).1 = false ∧
        (pyContains (api n).2 "does not exist" || pyContains (api n).2 "hubspotDefined") = true)
    (hq : (api i).1 = false ∧
        (pyContains (pyLower (api i).2) "default"
          || pyContains (api i).2 "cannot be deleted") = true) :
    (delete_properties api (n :: restP)).1 = Except.error (PyExn.nameError "time")
    ∧ (delete_properties api (n :: restP)).2.1 = []
    ∧ (delete_properties api (n :: restP)).2.2
        = ["Property " ++ n ++ " cannot be deleted (system-defined or doesn\x27t exist)"]
    ∧ (delete_properties_step api ⟨0, 0, [], []⟩ n).failed = 1
    ∧ (delete_pipelines api (i :: restI)).1 = Except.error (PyExn.nameError "time")
    ∧ (delete_pipelines api (i :: restI)).2.1 = []
    ∧ (delete_pipelines api (i :: restI)).2.2
        = ["Pipeline " ++ i ++ " cannot be deleted (system default)"]
    ∧ (delete_pipelines_step api ⟨0, 0, [], []⟩ i).failed = 1 := by
  have hstepP : delete_properties_step api ⟨0, 0, [], []⟩ n
      = ⟨0, 1, [],
         ["Property " ++ n ++ " cannot be deleted (system-defined or doesn\x27t exist)"]⟩ := by
    unfold delete_properties_step
    rw [hp.1, hp.2]
    simp
  have hstepI : delete_pipelines_step api ⟨0, 0, [], []⟩ i
      = ⟨0, 1, [], ["Pipeline " ++ i ++ " cannot be deleted (system default)"]⟩ := by
    unfold delete_pipelines_step
    rw [hq.1, hq.2]
    simp
  have hrunP : delete_properties api (n :: restP)
      = (Except.error (PyExn.nameError "time"), [],
         ["Property " ++ n ++ " cannot be deleted (system-defined or doesn\x27t exist)"]) := by
    unfold delete_properties delete_properties_go
    rw [hstepP]
    rfl
  have hrunI : delete_pipelines api (i :: restI)
      = (Except.error (PyExn.nameError "time"), [],
         ["Pipeline " ++ i ++ " cannot be deleted (system default)"]) := by
    unfold delete_pipelines delete_pipelines_go
    rw [hstepI]
    rfl
  rw [hrunP, hrunI, hstepP, hstepI]
  exact ⟨rfl, rfl, rfl, rfl, rfl, rfl, rfl, rfl⟩

/-- Witness for `c9_refusal_outcome`: one refused property and one refused
(default) pipeline each print a warning, append no error, count one
failure in the loop body, and abort with the `NameError`. -/
theorem c9_witness :
    (delete_properties
        (fun _ => (false, "hubspotDefined: default pipelines cannot be deleted")) ["p1"]).1
      = Except.error (PyExn.nameError "time")
    ∧ (delete_properties
        (fun _ => (false, "hubspotDefined: default pipelines cannot be deleted")) ["p1"]).2.1
      = []
    ∧ (delete_pipelines
        (fun _ => (false, "hubspotDefined: default pipelines cannot be deleted")) ["0"]).1
      = Except.error (PyExn.nameError "time")
    ∧ (delete_pipelines
        (fun _ => (false, "hubspotDefined: default pipelines cannot be deleted")) ["0"]).2.1
      = [] := by
  have h := c9_refusal_outcome
    (fun _ => (false, "hubspotDefined: default pipelines cannot be deleted")) "p1" "0" [] []
    (by decide) (by decide)
  exact ⟨h.1, h.2.1, h.2.2.2.2.1, h.2.2.2.2.2.1⟩

end Rollback

namespace PropertySync

open HubSpotMig

/-- A property definition as consumed by `property_sync.py`: the name and
the `hubspotDefined` flag that `create_property` inspects (label, type,
fieldType only shape the payload). -/
structure SyncProp where
  name : String
  hubspotDefined : Bool
deriving DecidableEq, Repr

/-- What `create_property` inspects of the `(success, data)` pair returned
by `make_hubspot_request` for the POST: the success flag and
`data.get('status_code')` of the error dict.  Note `make_hubspot_request`
itself maps a 409 response to `ok = True` (utils.py lines 121-126), so with
that implementation `ok = False` never comes with status code 409. -/
structure PostResult where
  ok : Bool
  statusCode : Option Nat
deriving DecidableEq, Repr

/-- `create_property` (`src/property_sync.py` lines 24-55): skip
`hubspotDefined` properties before any API call; map a successful POST to
`"Created successfully"`, a failed POST with status code 409 to
`"Already exists"`, anything else to an error. -/
def create_property (outcome : SyncProp → PostResult) (p : SyncProp) : Bool × String :=
  if p.hubspotDefined then (true, "System property - skipped")
  else
    let res := outcome p
    if res.ok then (true, "Created successfully")
    else if res.statusCode = some 409 then (true, "Already exists")
    else (false, "Error: creation failed")

/-- The `{'created', 'skipped', 'failed', 'total'}` counts returned by
`sync_properties`. -/
structure SyncCounts where
  created : Nat
  skipped : Nat
  failed : Nat
  total : Nat
deriving DecidableEq, Repr

/-- One iteration of the `sync_properties` creation loop
(`src/property_sync.py` lines 104-126): the message substring test
`"Created successfully" in message` decides created vs skipped. -/
def syncStep (outcome : SyncProp → PostResult) (counts : SyncCounts) (p : SyncProp) :
    SyncCounts :=
  let res := create_property outcome p
  if res.1 then
    if pyContains res.2 "Created successfully" then
      { counts with created := counts.created + 1 }
    else
      { counts with skipped := counts.skipped + 1 }
  else
    { counts with failed := counts.failed + 1 }

/-- `sync_properties` (`src/property_sync.py` lines 57-130): early returns
for empty production/sandbox listings, the all-exist short cut, and the
creation loop over the missing properties. -/
def sync_properties (prodProperties sandboxProperties : List SyncProp)
    (outcome : SyncProp → PostResult) : SyncCounts :=
  if prodProperties = [] then ⟨0, 0, 0, 0⟩
  else if sandboxProperties = [] then ⟨0, 0, 0, 0⟩
  else
    let sandbox_property_names := sandboxProperties.map (fun p => p.name)
    let missing_properties := prodProperties.filter
      (fun p => !(sandbox_property_names.contains p.name))
    if missing_properties = [] then ⟨0, prodProperties.length, 0, prodProperties.length⟩
    else missing_properties.foldl (syncStep outcome) ⟨0, 0, 0, missing_properties.length⟩

lemma syncFold (o : SyncProp → PostResult) (l : List SyncProp) (c : SyncCounts) :
    (l.foldl (syncStep o) c).created = c.created
        + l.countP (fun p => (create_property o p).1
            && pyContains (create_property o p).2 "Created successfully")
    ∧ (l.foldl (syncStep o) c).skipped = c.skipped
        + l.countP (fun p => (create_property o p).1
            && !(pyContains (create_property o p).2 "Created successfully"))
    ∧ (l.foldl (syncStep o) c).failed = c.failed
        + l.countP (fun p => !(create_property o p).1)
    ∧ (l.foldl (syncStep o) c).total = c.total := by
  induction l generalizing c with
  | nil => simp
  | cons p rest ih =>
    simp only [List.foldl_cons, List.countP_cons]
    obtain ⟨h1, h2, h3, h4⟩ := ih (syncStep o c p)
    cases hb1 : (create_property o p).1 with
    | true =>
      cases hb2 : pyContains (create_property o p).2 "Created successfully" with
      | true =>
        refine ⟨?_, ?_, ?_, ?_⟩
        · rw [h1]; simp [syncStep, hb1, hb2]; try omega
        · rw [h2]; simp [syncStep, hb1, hb2]; try omega
        · rw [h3]; simp [syncStep, hb1, hb2]; try omega
        · rw [h4]; simp [syncStep, hb1, hb2]; try omega
      | false =>
        refine ⟨?_, ?_, ?_, ?_⟩
        · rw [h1]; simp [syncStep, hb1, hb2]; try omega
        · rw [h2]; simp [syncStep, hb1, hb2]; try omega
        · rw [h3]; simp [syncStep, hb1, hb2]; try omega
        · rw [h4]; simp [syncStep, hb1, hb2]; try omega
    | false =>
      refine ⟨?_, ?_, ?_, ?_⟩
      · rw [h1]; simp [syncStep, hb1]; try omega
      · rw [h2]; simp [syncStep, hb1]; try omega
      · rw [h3]; simp [syncStep, hb1]; try omega
      · rw [h4]; simp [syncStep, hb1]; try omega

lemma sync_properties_eq (prodProps sandboxProps : List SyncProp)
    (o : SyncProp → PostResult) (h1 : prodProps ≠ []) (h2 : sandboxProps ≠ []) :
    sync_properties prodProps sandboxProps o =
      (if prodProps.filter
            (fun p => !((sandboxProps.map (fun q => q.name)).contains p.name)) = []
       then ⟨0, prodProps.length, 0, prodProps.length⟩
       else (prodProps.filter
              (fun p => !((sandboxProps.map (fun q => q.name)).contains p.name))).foldl
            (syncStep o)
            ⟨0, 0, 0, (prodProps.filter
              (fun p => !((sandboxProps.map (fun q => q.name)).contains p.name))).length⟩) := by
  unfold sync_properties
  rw [if_neg h1, if_neg h2]

/-- C6: running property synchronization twice against the same destination
— run 1 actually ran (non-empty sandbox listing) and had no failures, the
second run observes every property the first run reported as created, and
`make_hubspot_request` never returns `ok = False` with status code 409
(it maps 409 responses to success) — yields on the second run a result
with `created = 0` and `skipped = total`. -/
theorem c6_second_run_idempotent
    (prodProps sandbox1 sandbox2 : List SyncProp)
    (outcome1 outcome2 : SyncProp → PostResult)
    (hs1 : sandbox1 ≠ [])
    (hdead : ∀ p : SyncProp, (outcome1 p).ok = false → ¬(outcome1 p).statusCode = some 409)
    (hsub : ∀ n, n ∈ sandbox1.map (fun q => q.name) → n ∈ sandbox2.map (fun q => q.name))
    (hobs : ∀ p ∈ prodProps,
        create_property outcome1 p = (true, "Created successfully") →
        p.name ∈ sandbox2.map (fun q => q.name))
    (hfail : (sync_properties prodProps sandbox1 outcome1).failed = 0) :
    (sync_properties prodProps sandbox2 outcome2).created = 0
    ∧ (sync_properties prodProps sandbox2 outcome2).skipped
        = (sync_properties prodProps sandbox2 outcome2).total := by
  by_cases hprod : prodProps = []
  · constructor <;> simp [sync_properties, hprod]
  by_cases hsb2 : sandbox2 = []
  · constructor <;> simp [sync_properties, hprod, hsb2]
  rw [sync_properties_eq prodProps sandbox2 outcome2 hprod hsb2]
  by_cases hm2 : prodProps.filter
      (fun p => !((sandbox2.map (fun q => q.name)).contains p.name)) = []
  · rw [if_pos hm2]
    exact ⟨rfl, rfl⟩
  rw [if_neg hm2]
  have hallhd : ∀ p ∈ prodProps.filter
      (fun p => !((sandbox2.map (fun q => q.name)).contains p.name)),
      p.hubspotDefined = true := by
    intro p hp
    obtain ⟨hpp, hcon⟩ := List.mem_filter.mp hp
    rw [Bool.not_eq_true'] at hcon
    have hnot2 : p.name ∉ sandbox2.map (fun q => q.name) :=
      FieldFilters.contains_eq_false_iff_not_mem.mp hcon
    by_contra hhd
    have hdef : p.hubspotDefined = false := by
      revert hhd; cases p.hubspotDefined <;> simp
    have hnot1 : p.name ∉ sandbox1.map (fun q => q.name) := fun hin => hnot2 (hsub _ hin)
    have hp1 : p ∈ prodProps.filter
        (fun p => !((sandbox1.map (fun q => q.name)).contains p.name)) := by
      refine List.mem_filter.mpr ⟨hpp, ?_⟩
      rw [Bool.not_eq_true']
      exact FieldFilters.contains_eq_false_iff_not_mem.mpr hnot1
    have hm1ne : prodProps.filter
        (fun p => !((sandbox1.map (fun q => q.name)).contains p.name)) ≠ [] :=
      List.ne_nil_of_mem hp1
    rw [sync_properties_eq prodProps sandbox1 outcome1 hprod hs1, if_neg hm1ne] at hfail
    obtain ⟨-, -, hfe, -⟩ := syncFold outcome1
      (prodProps.filter (fun p => !((sandbox1.map (fun q => q.name)).contains p.name)))
      ⟨0, 0, 0, (prodProps.filter
        (fun p => !((sandbox1.map (fun q => q.name)).contains p.name))).length⟩
    rw [hfe] at hfail
    have hcount0 : List.countP (fun p => !(create_property outcome1 p).1)
        (prodProps.filter
          (fun p => !((sandbox1.map (fun q => q.name)).contains p.name))) = 0 := by
      omega
    have hcz := List.countP_eq_zero.mp hcount0
    have hok : (create_property outcome1 p).1 = true := by
      have := hcz p hp1
      revert this
      cases (create_property outcome1 p).1 <;> simp
    have hres : create_property outcome1 p = (true, "Created successfully")
        ∨ (create_property outcome1 p).1 = false := by
      unfold create_property
      rw [if_neg (by rw [hdef]; exact Bool.false_ne_true)]
      by_cases ho : (outcome1 p).ok = true
      · left; rw [if_pos ho]
      · have ho' : (outcome1 p).ok = false := by
          revert ho; cases (outcome1 p).ok <;> simp
        right
        rw [if_neg (by rw [ho']; exact Bool.false_ne_true), if_neg (hdead p ho')]
    rcases hres with hres | hres
    · exact hnot2 (hobs p hpp hres)
    · rw [hres] at hok; cases hok
  obtain ⟨hc, hsk, -, ht⟩ := syncFold outcome2
    (prodProps.filter (fun p => !((sandbox2.map (fun q => q.name)).contains p.name)))
    ⟨0, 0, 0, (prodProps.filter
      (fun p => !((sandbox2.map (fun q => q.name)).contains p.name))).length⟩
  constructor
  · rw [hc]
    simp only [Nat.zero_add]
    rw [List.countP_eq_zero.mpr]
    intro p hp
    have hstep : create_property outcome2 p = (true, "System property - skipped") := by
      unfold create_property
      rw [if_pos (hallhd p hp)]
    rw [hstep]
    decide
  · rw [hsk, ht]
    simp only [Nat.zero_add]
    rw [List.countP_eq_length.mpr]
    intro p hp
    have hstep : create_property outcome2 p = (true, "System property - skipped") := by
      unfold create_property
      rw [if_pos (hallhd p hp)]
    rw [hstep]
    decide

/-- Witness for `c6_second_run_idempotent`: after a first run that created
`custom_a` and skipped the hubspotDefined `hs_sys`, the second run creates
nothing and skips everything it attempts. -/
theorem c6_witness :
    (sync_properties [⟨"custom_a", false⟩, ⟨"hs_sys", true⟩]
        [⟨"email", false⟩, ⟨"custom_a", false⟩]
        (fun _ => ⟨false, some 400⟩)).created = 0
    ∧ (sync_properties [⟨"custom_a", false⟩, ⟨"hs_sys", true⟩]
        [⟨"email", false⟩, ⟨"custom_a", false⟩]
        (fun _ => ⟨false, some 400⟩)).skipped
      = (sync_properties [⟨"custom_a", false⟩, ⟨"hs_sys", true⟩]
          [⟨"email", false⟩, ⟨"custom_a", false⟩]
          (fun _ => ⟨false, some 400⟩)).total :=
  c6_second_run_idempotent
    [⟨"custom_a", false⟩, ⟨"hs_sys", true⟩]
    [⟨"email", false⟩]
    [⟨"email", false⟩, ⟨"custom_a", false⟩]
    (fun _ => ⟨true, none⟩) (fun _ => ⟨false, some 400⟩)
    (by decide)
    (fun p h => by simp at h)
    (by decide)
    (by decide)
    (by decide)

end PropertySync

namespace DealAssoc

open HubSpotMig

/-- One entry of the `inputs` array of a batch-associations create payload
(`src/src/migrations/deal_association_migrator.py` lines 134-141 and
155-164): `{"from": {"id": fromId}, "to": {"id": toId}, "type": typ}`. -/
structure AssocInput where
  fromId : String
  toId : String
  typ : String
deriving DecidableEq, Repr

/-- One batch-associations create call: the endpoint URL and its
`inputs` payload. -/
structure BatchCall where
  url : String
  inputs : List AssocInput
deriving DecidableEq, Repr

def contactsBatchUrl : String :=
  "https://api.hubapi.com/crm/v3/associations/deals/contacts/batch/create"

def companiesBatchUrl : String :=
  "https://api.hubapi.com/crm/v3/associations/deals/companies/batch/create"

/-- `create_deal_contact_associations` (lines 125-145): returns without a
request when the mapped contact list is empty, otherwise issues exactly one
batch create call whose inputs pair the deal with every contact id. -/
def create_deal_contact_associations (sandboxDealId : String)
    (sandboxContactIds : List String) : Option BatchCall :=
  if sandboxContactIds = [] then none
  else some ⟨contactsBatchUrl,
    sandboxContactIds.map (fun contactId => ⟨sandboxDealId, contactId, "deal_to_contact"⟩)⟩

/-- `create_deal_company_associations` (lines 147-167). -/
def create_deal_company_associations (sandboxDealId : String)
    (sandboxCompanyIds : List String) : Option BatchCall :=
  if sandboxCompanyIds = [] then none
  else some ⟨companiesBatchUrl,
    sandboxCompanyIds.map (fun companyId => ⟨sandboxDealId, companyId, "deal_to_company"⟩)⟩

/-- One `self.failed_associations` entry (lines 238-242 and 263-267):
`{'deal_id': ..., 'type': 'contact'|'company', 'error': error_msg}`. -/
structure FailEntry where
  dealId : String
  typ : String
  error : String
deriving DecidableEq, Repr

/-- What one iteration of the `migrate_deal_associations` loop produces for
a deal: the batch calls issued, the contact/company association counters
added, and the failure entries appended. -/
structure DealOutcome where
  calls : List BatchCall
  contactCount : Nat
  companyCount : Nat
  failed : List FailEntry
deriving Repr

/-- The body of the `migrate_deal_associations` loop for one mapped deal
(lines 191-267): translate each production-side associated contact/company
id through its IdMapping (`cm`/`com`; unmapped ids are only printed as
warnings), issue at most one contact and one company batch-create call,
count the created links on success, and append a `failed_associations`
entry when a call fails.  `apiOk` is the success of each batch call,
`apiErr` the `str(result)` used for the error message. -/
def processDeal (cm com : String → Option String) (apiOk : BatchCall → Bool)
    (apiErr : BatchCall → String) (sandboxDealId : String)
    (prodContacts prodCompanies : List String) : DealOutcome :=
  let sandbox_contacts := prodContacts.filterMap cm
  let sandbox_companies := prodCompanies.filterMap com
  let contactPart : DealOutcome :=
    match create_deal_contact_associations sandboxDealId sandbox_contacts with
    | none => ⟨[], 0, 0, []⟩
    | some call =>
      if apiOk call then ⟨[call], sandbox_contacts.length, 0, []⟩
      else ⟨[call], 0, 0,
        [⟨sandboxDealId, "contact",
          if apiErr call = "" then "Unknown error" else pyTake 100 (apiErr call)⟩]⟩
  let companyPart : DealOutcome :=
    match create_deal_company_associations sandboxDealId sandbox_companies with
    | none => ⟨[], 0, 0, []⟩
    | some call =>
      if apiOk call then ⟨[call], 0, sandbox_companies.length, []⟩
      else ⟨[call], 0, 0,
        [⟨sandboxDealId, "company",
          if apiErr call = "" then "Unknown error" else pyTake 100 (apiErr call)⟩]⟩
  ⟨contactPart.calls ++ companyPart.calls,
   contactPart.contactCount + companyPart.contactCount,
   contactPart.companyCount + companyPart.companyCount,
   contactPart.failed ++ companyPart.failed⟩
/-- C3: for a mapped source deal, every associated source contact id with
an IdMapping entry is translated and sent in exactly one batch-associations
create call as the pair (mapped deal id, mapped contact id); when the batch
calls succeed each mapped id is counted exactly once; ids absent from their
IdMapping generate no association pair at all; and the failed-associations
list stays empty when the calls succeed (it only ever records call-level
failures, never unmapped ids). -/
theorem c3_assoc_translation (cm com : String → Option String)
    (apiOk : BatchCall → Bool) (apiErr : BatchCall → String)
    (dealId : String) (prodContacts prodCompanies : List String)
    (c C : String) (hmem : c ∈ prodContacts) (hmap : cm c = some C)
    (hnd : (prodContacts.filterMap cm).Nodup) :
    (((processDeal cm com apiOk apiErr dealId prodContacts prodCompanies).calls.map
        (fun call => call.inputs.count ⟨dealId, C, "deal_to_contact"⟩)).sum = 1)
    ∧ ((∀ call ∈ (processDeal cm com apiOk apiErr dealId prodContacts prodCompanies).calls,
          apiOk call = true) →
        (processDeal cm com apiOk apiErr dealId prodContacts prodCompanies).contactCount
          = (prodContacts.filterMap cm).length)
    ∧ (∀ call ∈ (processDeal cm com apiOk apiErr dealId prodContacts prodCompanies).calls,
        ∀ i ∈ call.inputs, i.fromId = dealId ∧
          (i.toId ∈ prodContacts.filterMap cm ∨ i.toId ∈ prodCompanies.filterMap com))
    ∧ ((∀ call ∈ (processDeal cm com apiOk apiErr dealId prodContacts prodCompanies).calls,
          apiOk call = true) →
        (processDeal cm com apiOk apiErr dealId prodContacts prodCompanies).failed = []) := by
  have hC : C ∈ prodContacts.filterMap cm := List.mem_filterMap.mpr ⟨c, hmem, hmap⟩
  have hmcne : prodContacts.filterMap cm ≠ [] := List.ne_nil_of_mem hC
  have hcc : create_deal_contact_associations dealId (prodContacts.filterMap cm)
      = some ⟨contactsBatchUrl, (prodContacts.filterMap cm).map
          (fun contactId => ⟨dealId, contactId, "deal_to_contact"⟩)⟩ := by
    unfold create_deal_contact_associations
    rw [if_neg hmcne]
  have hcount1 : ((prodContacts.filterMap cm).map
      (fun contactId => (⟨dealId, contactId, "deal_to_contact"⟩ : AssocInput))).count
        ⟨dealId, C, "deal_to_contact"⟩ = 1 := by
    have hinj : Function.Injective
        (fun contactId => (⟨dealId, contactId, "deal_to_contact"⟩ : AssocInput)) :=
      fun a b h => congrArg AssocInput.toId h
    rw [show (⟨dealId, C, "deal_to_contact"⟩ : AssocInput)
        = (fun contactId => (⟨dealId, contactId, "deal_to_contact"⟩ : AssocInput)) C from rfl,
      List.count_map_of_injective _ _ hinj]
    exact List.count_eq_one_of_mem hnd hC
  have hcount0 : ∀ (L : List String), ((L.map
      (fun companyId => (⟨dealId, companyId, "deal_to_company"⟩ : AssocInput))).count
        ⟨dealId, C, "deal_to_contact"⟩) = 0 := by
    intro L
    rw [List.count_eq_zero]
    intro hmem'
    obtain ⟨x, -, hx⟩ := List.mem_map.mp hmem'
    simp at hx
  by_cases hmoe : prodCompanies.filterMap com = []
  · have hco : create_deal_company_associations dealId (prodCompanies.filterMap com)
        = none := by
      unfold create_deal_company_associations
      rw [if_pos hmoe]
    have hcalls : (processDeal cm com apiOk apiErr dealId prodContacts prodCompanies).calls
        = [⟨contactsBatchUrl, (prodContacts.filterMap cm).map
            (fun contactId => ⟨dealId, contactId, "deal_to_contact"⟩)⟩] := by
      cases hok : apiOk ⟨contactsBatchUrl, (prodContacts.filterMap cm).map
          (fun contactId => ⟨dealId, contactId, "deal_to_contact"⟩)⟩ <;>
        simp [processDeal, hcc, hco, hok]
    refine ⟨?_, ?_, ?_, ?_⟩
    · rw [hcalls]
      simp [hcount1]
    · intro hall
      have hokc := hall _ (by rw [hcalls]; exact List.mem_singleton.mpr rfl)
      simp [processDeal, hcc, hco, hokc]
    · intro call hcall i hi
      rw [hcalls] at hcall
      rcases List.mem_singleton.mp hcall with rfl
      obtain ⟨x, hxmem, hxeq⟩ := List.mem_map.mp hi
      subst hxeq
      exact ⟨rfl, Or.inl hxmem⟩
    · intro hall
      have hokc := hall _ (by rw [hcalls]; exact List.mem_singleton.mpr rfl)
      simp [processDeal, hcc, hco, hokc]
  · have hco : create_deal_company_associations dealId (prodCompanies.filterMap com)
        = some ⟨companiesBatchUrl, (prodCompanies.filterMap com).map
            (fun companyId => ⟨dealId, companyId, "deal_to_company"⟩)⟩ := by
      unfold create_deal_company_associations
      rw [if_neg hmoe]
    have hcalls : (processDeal cm com apiOk apiErr dealId prodContacts prodCompanies).calls
        = [⟨contactsBatchUrl, (prodContacts.filterMap cm).map
            (fun contactId => ⟨dealId, contactId, "deal_to_contact"⟩)⟩,
           ⟨companiesBatchUrl, (prodCompanies.filterMap com).map
            (fun companyId => ⟨dealId, companyId, "deal_to_company"⟩)⟩] := by
      cases hok : apiOk ⟨contactsBatchUrl, (prodContacts.filterMap cm).map
          (fun contactId => ⟨dealId, contactId, "deal_to_contact"⟩)⟩ <;>
        cases hok2 : apiOk ⟨companiesBatchUrl, (prodCompanies.filterMap com).map
            (fun companyId => ⟨dealId, companyId, "deal_to_company"⟩)⟩ <;>
          simp [processDeal, hcc, hco, hok, hok2]
    refine ⟨?_, ?_, ?_, ?_⟩
    · rw [hcalls]
      simp [hcount1, hcount0]
    · intro hall
      have hokc := hall _ (by rw [hcalls]; exact List.mem_cons_self _ _)
      have hoko := hall _ (by rw [hcalls]; exact List.mem_cons_of_mem _ (List.mem_singleton.mpr rfl))
      simp [processDeal, hcc, hco, hokc, hoko]
    · intro call hcall i hi
      rw [hcalls] at hcall
      rcases List.mem_cons.mp hcall with rfl | hcall2
      · obtain ⟨x, hxmem, hxeq⟩ := List.mem_map.mp hi
        subst hxeq
        exact ⟨rfl, Or.inl hxmem⟩
      · rcases List.mem_singleton.mp hcall2 with rfl
        obtain ⟨x, hxmem, hxeq⟩ := List.mem_map.mp hi
        subst hxeq
        exact ⟨rfl, Or.inr hxmem⟩
    · intro hall
      have hokc := hall _ (by rw [hcalls]; exact List.mem_cons_self _ _)
      have hoko := hall _ (by rw [hcalls]; exact List.mem_cons_of_mem _ (List.mem_singleton.mpr rfl))
      simp [processDeal, hcc, hco, hokc, hoko]


/-- Witness for `c3_assoc_translation`: mapping `{deal 1 -> D1, contact 2 -> C1}`
with source association deal 1 ↔ contact 2 produces exactly one batch pair
`{from: D1, to: C1}` counted once. -/
theorem c3_witness :
    (((processDeal (fun s => if s = "2" then some "C1" else none) (fun _ => none)
        (fun _ => true) (fun _ => "") "D1" ["2"] []).calls.map
        (fun call => call.inputs.count ⟨"D1", "C1", "deal_to_contact"⟩)).sum = 1)
    ∧ (processDeal (fun s => if s = "2" then some "C1" else none) (fun _ => none)
        (fun _ => true) (fun _ => "") "D1" ["2"] []).contactCount
      = (["2"].filterMap (fun s => if s = "2" then some "C1" else none)).length := by
  have h := c3_assoc_translation (fun s => if s = "2" then some "C1" else none) (fun _ => none)
    (fun _ => true) (fun _ => "") "D1" ["2"] [] "2" "C1" (by decide) (by decide) (by decide)
  exact ⟨h.1, h.2.1 (fun call hc => rfl)⟩

end DealAssoc

namespace SelectiveSync

open HubSpotMig

/-- `SelectiveSyncManager._calculate_company_similarity`
(`src/src/core/selective_sync.py` lines 1282-1307): exact match, substring
containment scaled by 0.9, or token-set Jaccard similarity.  Python floats
are modelled as `ℚ`; `len()` is the character count. -/
def _calculate_company_similarity (name1 name2 : String) : ℚ :=
  if name1 = "" ∨ name2 = "" then 0
  else if name1 = name2 then 1
  else if pyContains name2 name1 || pyContains name1 name2 then
    ((min name1.length name2.length : ℕ) : ℚ) / ((max name1.length name2.length : ℕ) : ℚ)
      * (9 / 10)
  else if (pySplitWs name1).toFinset = ∅ ∨ (pySplitWs name2).toFinset = ∅ then 0
  else if ((pySplitWs name1).toFinset ∪ (pySplitWs name2).toFinset).card > 0 then
    (((pySplitWs name1).toFinset ∩ (pySplitWs name2).toFinset).card : ℚ)
      / (((pySplitWs name1).toFinset ∪ (pySplitWs name2).toFinset).card : ℚ)
  else 0

/-- A company candidate, reduced to the `properties.name` field that
`_find_best_company_match` reads. -/
structure Company where
  name : String
deriving DecidableEq, Repr

/-- The loop body of `_find_best_company_match` (lines 1265-1278): skip
candidates without a name, score the normalized names, and keep the
candidate when its score beats both the 0.7 threshold and the best so
far. -/
def findBestStep (target_normalized : String) (acc : ℚ × Option Company)
    (candidate : Company) : ℚ × Option Company :=
  if candidate.name = "" then acc
  else if _calculate_company_similarity target_normalized (pyStrip (pyLower candidate.name))
        > 7 / 10
      ∧ _calculate_company_similarity target_normalized (pyStrip (pyLower candidate.name))
        > acc.1 then
    (_calculate_company_similarity target_normalized (pyStrip (pyLower candidate.name)),
     some candidate)
  else acc

/-- `SelectiveSyncManager._find_best_company_match` (lines 1256-1280). -/
def _find_best_company_match (targetName : String) (candidates : List Company) :
    Option Company :=
  if candidates = [] then none
  else (candidates.foldl (findBestStep (pyStrip (pyLower targetName)))
    ((0 : ℚ), (none : Option Company))).2

lemma length_pos_of_ne_empty {s : String} (h : s ≠ "") : 0 < s.length := by
  cases s with
  | mk data =>
    cases data with
    | nil => exact absurd rfl h
    | cons c cs => simp [String.length]

lemma sim_nonneg_le_one (a b : String) :
    0 ≤ _calculate_company_similarity a b ∧ _calculate_company_similarity a b ≤ 1 := by
  unfold _calculate_company_similarity
  split_ifs with h1 h2 h3 h4 h5
  · exact ⟨le_refl 0, by norm_num⟩
  · exact ⟨by norm_num, le_refl 1⟩
  · push_neg at h1
    have hla : 0 < a.length := length_pos_of_ne_empty h1.1
    have hmaxpos : (0 : ℚ) < ((max a.length b.length : ℕ) : ℚ) := by
      have hm : 0 < max a.length b.length := lt_of_lt_of_le hla (le_max_left _ _)
      exact_mod_cast hm
    have hdiv1 : ((min a.length b.length : ℕ) : ℚ) / ((max a.length b.length : ℕ) : ℚ) ≤ 1 := by
      rw [div_le_one hmaxpos]
      exact_mod_cast min_le_max
    have hdiv0 : (0 : ℚ) ≤ ((min a.length b.length : ℕ) : ℚ) / ((max a.length b.length : ℕ) : ℚ) :=
      div_nonneg (by positivity) (by positivity)
    constructor
    · exact mul_nonneg hdiv0 (by norm_num)
    · calc ((min a.length b.length : ℕ) : ℚ) / ((max a.length b.length : ℕ) : ℚ) * (9 / 10)
          ≤ 1 * (9 / 10) := mul_le_mul_of_nonneg_right hdiv1 (by norm_num)
      _ ≤ 1 := by norm_num
  · exact ⟨le_refl 0, by norm_num⟩
  · have hupos : (0 : ℚ) < (((pySplitWs a).toFinset ∪ (pySplitWs b).toFinset).card : ℚ) := by
      exact_mod_cast h5
    have hle : ((pySplitWs a).toFinset ∩ (pySplitWs b).toFinset).card
        ≤ ((pySplitWs a).toFinset ∪ (pySplitWs b).toFinset).card :=
      Finset.card_le_card ((Finset.inter_subset_left).trans Finset.subset_union_left)
    constructor
    · exact div_nonneg (by positivity) (by positivity)
    · rw [div_le_one hupos]
      exact_mod_cast hle
  · exact ⟨le_refl 0, by norm_num⟩

lemma sim_symm (a b : String) :
    _calculate_company_similarity a b = _calculate_company_similarity b a := by
  by_cases h2 : a = b
  · subst h2; rfl
  unfold _calculate_company_similarity
  by_cases h1 : a = "" ∨ b = ""
  · rw [if_pos h1, if_pos (Or.symm h1)]
  · rw [if_neg h1, if_neg (show ¬(b = "" ∨ a = "") from fun h => h1 (Or.symm h)),
      if_neg h2, if_neg (show ¬(b = a) from fun h => h2 h.symm)]
    by_cases h3 : (pyContains b a || pyContains a b) = true
    · rw [if_pos h3, if_pos (show (pyContains a b || pyContains b a) = true by
        rw [Bool.or_comm]; exact h3)]
      rw [Nat.min_comm, Nat.max_comm]
    · rw [if_neg h3, if_neg (show ¬(pyContains a b || pyContains b a) = true by
        rw [Bool.or_comm]; exact h3)]
      by_cases h4 : (pySplitWs a).toFinset = ∅ ∨ (pySplitWs b).toFinset = ∅
      · rw [if_pos h4, if_pos (Or.symm h4)]
      · rw [if_neg h4, if_neg (show ¬((pySplitWs b).toFinset = ∅ ∨ (pySplitWs a).toFinset = ∅)
          from fun h => h4 (Or.symm h))]
        rw [Finset.inter_comm, Finset.union_comm]

lemma sim_self_eq_one {a : String} (h : a ≠ "") :
    _calculate_company_similarity a a = 1 := by
  unfold _calculate_company_similarity
  rw [if_neg (show ¬(a = "" ∨ a = "") by rintro (hh | hh) <;> exact h hh), if_pos rfl]

lemma findBest_gt (t : String) (l : List Company) (acc : ℚ × Option Company)
    (hacc : ∀ x, acc.2 = some x →
      7 / 10 < _calculate_company_similarity (pyStrip (pyLower t))
        (pyStrip (pyLower x.name)))
    (x : Company)
    (hx : (l.foldl (findBestStep (pyStrip (pyLower t))) acc).2 = some x) :
    7 / 10 < _calculate_company_similarity (pyStrip (pyLower t))
      (pyStrip (pyLower x.name)) := by
  induction l generalizing acc with
  | nil => exact hacc x hx
  | cons cand rest ih =>
    rw [List.foldl_cons] at hx
    refine ih _ ?_ hx
    intro y hy
    unfold findBestStep at hy
    split_ifs at hy with hc1 hc2
    · exact hacc y hy
    · obtain ⟨hgt, -⟩ := hc2
      have hyc : y = cand := by
        simp at hy
        exact hy.symm
      rw [hyc]
      exact hgt
    · exact hacc y hy

/-- C10 counterexample: `_calculate_company_similarity("", "")` returns 0.0,
not 1.0 — the empty-name guard precedes the exact-match branch — so
"returns exactly 1.0 when a == b" fails for the empty string. -/
theorem c10_counterexample :
    _calculate_company_similarity "" "" = 0 ∧ _calculate_company_similarity "" "" ≠ 1 := by
  decide

/-- C10 (amended): `_calculate_company_similarity` is in [0.0, 1.0] and
symmetric, returns exactly 1.0 when its arguments are equal and non-empty,
and `_find_best_company_match` returns a candidate only when the
candidate\x27s similarity score strictly exceeds 0.7. -/
theorem c10_similarity (a b : String) :
    (0 ≤ _calculate_company_similarity a b ∧ _calculate_company_similarity a b ≤ 1)
    ∧ _calculate_company_similarity a b = _calculate_company_similarity b a
    ∧ (a ≠ "" → _calculate_company_similarity a a = 1)
    ∧ (∀ (t : String) (cands : List Company) (chosen : Company),
        _find_best_company_match t cands = some chosen →
        7 / 10 < _calculate_company_similarity (pyStrip (pyLower t))
          (pyStrip (pyLower chosen.name))) := by
  refine ⟨sim_nonneg_le_one a b, sim_symm a b, fun h => sim_self_eq_one h, ?_⟩
  intro t cands chosen hfind
  unfold _find_best_company_match at hfind
  by_cases hc : cands = []
  · rw [if_pos hc] at hfind
    exact Option.noConfusion hfind
  · rw [if_neg hc] at hfind
    exact findBest_gt t cands ((0 : ℚ), none) (fun x hx => Option.noConfusion hx) chosen hfind

/-- Witness for `c10_similarity`: an exact non-empty match scores 1.0, and
the chosen candidate of a concrete search beats the 0.7 threshold. -/
theorem c10_witness :
    _calculate_company_similarity "acme inc" "acme inc" = 1
    ∧ 7 / 10 < _calculate_company_similarity (pyStrip (pyLower "Acme"))
        (pyStrip (pyLower (Company.mk "Acme").name)) := by
  have hsim : _calculate_company_similarity "acme" "acme" = 1 :=
    sim_self_eq_one (by decide)
  have hcond : _calculate_company_similarity (pyStrip (pyLower "Acme"))
        (pyStrip (pyLower (Company.mk "Acme").name)) > 7 / 10
      ∧ _calculate_company_similarity (pyStrip (pyLower "Acme"))
        (pyStrip (pyLower (Company.mk "Acme").name))
          > ((0 : ℚ), (none : Option Company)).1 := by
    constructor
    · show (7 / 10 : ℚ) < _calculate_company_similarity (pyStrip (pyLower "Acme"))
        (pyStrip (pyLower (Company.mk "Acme").name))
      rw [show pyStrip (pyLower (Company.mk "Acme").name) = "acme" from by decide, hsim]
      norm_num
    · show (((0 : ℚ), (none : Option Company)).1)
        < _calculate_company_similarity (pyStrip (pyLower "Acme"))
          (pyStrip (pyLower (Company.mk "Acme").name))
      rw [show pyStrip (pyLower (Company.mk "Acme").name) = "acme" from by decide, hsim]
      norm_num
  have hfind : _find_best_company_match "Acme" [⟨"Acme"⟩] = some ⟨"Acme"⟩ := by
    unfold _find_best_company_match
    rw [if_neg (show ¬([(⟨"Acme"⟩ : Company)] = []) by decide)]
    rw [List.foldl_cons, List.foldl_nil]
    unfold findBestStep
    rw [if_neg (show ¬((⟨"Acme"⟩ : Company).name = "") by decide), if_pos hcond]
  exact ⟨(c10_similarity "acme inc" "acme inc").2.2.1 (by decide),
    (c10_similarity "" "").2.2.2 "Acme" [⟨"Acme"⟩] ⟨"Acme"⟩ hfind⟩

end SelectiveSync
